import Mathlib

/-!
Verification of the StellarSolver orchestration layer (ExtractorSolver /
ExternalExtractorSolver and the depth-parallel scheduler) against its
specification.  The C++ classes are shallowly embedded: an object's data
members become a Lean structure, each member function becomes a pure
function on that structure (stateful methods return the updated state),
C++ `double` fields are modelled as `Rat`, pointers as numeric addresses,
and fallible operations return `Option`.
-/

namespace StellarSolverSpec

/-! ### Enumerations (from parameters.h, as used by the sources and demos) -/

/-- SSolver::ProcessType, the requested operation kind. -/
inductive ProcessType
  | EXTRACT
  | EXTRACT_WITH_HFR
  | SOLVE
  deriving DecidableEq, Repr

/-- SSolver::ExtractorType, which star-extraction backend to use. -/
inductive ExtractorType
  | EXTRACTOR_INTERNAL
  | EXTRACTOR_EXTERNAL
  | EXTRACTOR_BUILTIN
  deriving DecidableEq, Repr

/-- SSolver::SolverType, which plate-solving engine to use. -/
inductive SolverType
  | SOLVER_STELLARSOLVER
  | SOLVER_LOCALASTROMETRY
  | SOLVER_ASTAP
  | SOLVER_WATNEY
  | SOLVER_ONLINEASTROMETRY
  deriving DecidableEq, Repr

/-- SSolver::ScaleUnits, the units of the image-scale search bounds
(the four cases of getScaleUnitString in extractorsolver.h). -/
inductive ScaleUnits
  | DEG_WIDTH
  | ARCMIN_WIDTH
  | ARCSEC_PER_PIX
  | FOCAL_MM
  deriving DecidableEq, Repr

/-- logging_level of Astrometry.net (only LOG_NONE is referenced in src). -/
inductive LoggingLevel
  | LOG_NONE
  | LOG_ERROR
  | LOG_MSG
  | LOG_VERB
  | LOG_ALL
  deriving DecidableEq, Repr

/-- SSolverLogLevel (only LOG_NORMAL is referenced in src). -/
inductive SSolverLogLevel
  | LOG_OFF
  | LOG_NORMAL
  | LOG_VERBOSE
  deriving DecidableEq, Repr

/-! ### Result-model value types (structuredefinitions.h, fields as read by
the demos: Solution.ra/dec/fieldWidth/fieldHeight/pixscale/orientation/parity,
Star.x/y/ra/dec/mag/peak/HFR). -/

/-- FITSImage::Parity flip state of a solution. -/
inductive Parity
  | POSITIVE
  | NEGATIVE
  | BOTH
  deriving DecidableEq, Repr

/-- FITSImage::Star, one extracted star. -/
structure Star where
  x : Rat
  y : Rat
  mag : Rat
  peak : Rat
  HFR : Rat
  ra : Rat
  dec : Rat
  deriving DecidableEq, Repr

/-- FITSImage::Background, scalar summary of the extraction background. -/
structure Background where
  bh : Rat
  bw : Rat
  globalmean : Rat
  globalrms : Rat
  num_stars_detected : Nat
  deriving DecidableEq, Repr

/-- FITSImage::Solution, the normalized result of a successful solve. -/
structure Solution where
  fieldWidth : Rat
  fieldHeight : Rat
  ra : Rat
  dec : Rat
  orientation : Rat
  pixscale : Rat
  parity : Parity
  raError : Rat
  decError : Rat
  deriving DecidableEq, Repr

/-- FITSImage::Statistic, read-only information about the image
(convertToDegreeHeight reads .height). -/
structure Statistic where
  width : Nat
  height : Nat
  channels : Nat
  bytesPerPixel : Nat
  deriving DecidableEq, Repr

/-- QRect, the subframe rectangle. -/
structure Rect where
  rx : Int
  ry : Int
  rwidth : Int
  rheight : Int
  deriving DecidableEq, Repr

/-- QPointF, an x/y pixel coordinate. -/
structure QPointF where
  px : Rat
  py : Rat
  deriving DecidableEq, Repr

/-- FITSImage::wcs_point, an RA/Dec sky coordinate. -/
structure WcsPoint where
  wra : Rat
  wdec : Rat
  deriving DecidableEq, Repr

/-- Model of the C double HUGE_VAL sentinel used to initialize
search_ra/search_dec (an otherwise-unused distinguished rational). -/
def HUGE_VAL : Rat := 10 ^ 400

/-! ### ExtractorSolver state (the data members of extractorsolver.h) -/

/-- The data members of class ExtractorSolver, with the in-class default
initializers of extractorsolver.h.  The image buffer pointer is modelled
as a numeric address so that sharing (pointer equality) is expressible. -/
structure ExtractorSolver where
  m_ProcessType : ProcessType
  m_ExtractorType : ExtractorType
  m_SolverType : SolverType
  m_LogToFile : Bool := false
  m_LogFileName : String := ""
  m_AstrometryLogLevel : LoggingLevel := .LOG_NONE
  m_SSLogLevel : SSolverLogLevel := .LOG_NORMAL
  m_BaseName : String := ""
  m_BasePath : String := ""
  indexFolderPaths : List String := []
  indexFiles : List String := []
  convFilter : List Rat := [1, 2, 1, 2, 4, 2, 1, 2, 1]
  m_UseScale : Bool := false
  scalelo : Rat := 0
  scalehi : Rat := 0
  scaleunit : ScaleUnits := .DEG_WIDTH
  depthlo : Int := -1
  depthhi : Int := -1
  m_UsePosition : Bool := false
  search_ra : Rat := HUGE_VAL
  search_dec : Rat := HUGE_VAL
  m_HasExtracted : Bool := false
  m_HasSolved : Bool := false
  m_HasWCS : Bool := false
  m_WasAborted : Bool := false
  m_UseSubframe : Bool := false
  m_SubFrameRect : Rect := ⟨0, 0, 0, 0⟩
  m_Statistics : Statistic
  m_ImageBuffer : Nat
  usingDownsampledImage : Bool := false
  m_Background : Background := ⟨0, 0, 0, 0, 0⟩
  m_ExtractedStars : List Star := []
  m_Solution : Solution := ⟨0, 0, 0, 0, 0, 0, .POSITIVE, 0, 0⟩
  solutionIndexNumber : Int := -1
  solutionHealpix : Int := -1
  cancelfn : String := ""
  solvedfn : String := ""
  isChildSolver : Bool := false
  deriving DecidableEq, Repr

namespace ExtractorSolver

/-- The ExtractorSolver constructor (extractorsolver.cpp lines 12-17): it
stores the process/extractor/solver types, the statistics and the image
buffer pointer; every other member keeps its in-class default. -/
def construct (pType : ProcessType) (eType : ExtractorType) (sType : SolverType)
    (statistics : Statistic) (imageBuffer : Nat) : ExtractorSolver :=
  { m_ProcessType := pType
    m_ExtractorType := eType
    m_SolverType := sType
    m_Statistics := statistics
    m_ImageBuffer := imageBuffer }

/-- ExtractorSolver::setSearchScale (extractorsolver.cpp lines 25-34):
sets m_UseScale, scalelo, scalehi, scaleunit. -/
def setSearchScale (s : ExtractorSolver) (fov_low fov_high : Rat)
    (units : ScaleUnits) : ExtractorSolver :=
  { s with m_UseScale := true, scalelo := fov_low, scalehi := fov_high,
           scaleunit := units }

/-- ExtractorSolver::setSearchPositionInDegrees (extractorsolver.cpp
lines 38-45): sets m_UsePosition, search_ra, search_dec. -/
def setSearchPositionInDegrees (s : ExtractorSolver) (ra dec : Rat) :
    ExtractorSolver :=
  { s with m_UsePosition := true, search_ra := ra, search_dec := dec }

/-- getNumStarsFound (extractorsolver.h lines 171-174): returns
m_ExtractedStars.size(). -/
def getNumStarsFound (s : ExtractorSolver) : Nat :=
  s.m_ExtractedStars.length

/-- getStarList (extractorsolver.h lines 180-183): returns m_ExtractedStars. -/
def getStarList (s : ExtractorSolver) : List Star :=
  s.m_ExtractedStars

/-- getSolution (extractorsolver.h): returns m_Solution. -/
def getSolution (s : ExtractorSolver) : Solution :=
  s.m_Solution

/-- getSolutionIndexNumber (extractorsolver.h lines 198-201): returns
solutionIndexNumber. -/
def getSolutionIndexNumber (s : ExtractorSolver) : Int :=
  s.solutionIndexNumber

/-- getSolutionHealpix (extractorsolver.h lines 207-210): returns
solutionHealpix. -/
def getSolutionHealpix (s : ExtractorSolver) : Int :=
  s.solutionHealpix

/-- hasWCSData (extractorsolver.h lines 216-219): returns m_HasWCS. -/
def hasWCSData (s : ExtractorSolver) : Bool :=
  s.m_HasWCS

/-- solvingDone (extractorsolver.h lines 225-228): returns m_HasSolved. -/
def solvingDone (s : ExtractorSolver) : Bool :=
  s.m_HasSolved

/-- extractionDone (extractorsolver.h lines 234-237): returns m_HasExtracted. -/
def extractionDone (s : ExtractorSolver) : Bool :=
  s.m_HasExtracted

/-- isCalculatingHFR (extractorsolver.h): m_ProcessType == EXTRACT_WITH_HFR. -/
def isCalculatingHFR (s : ExtractorSolver) : Bool :=
  s.m_ProcessType = .EXTRACT_WITH_HFR

/-- setUseSubframe (extractorsolver.h lines 252-256). -/
def setUseSubframe (s : ExtractorSolver) (frame : Rect) : ExtractorSolver :=
  { s with m_UseSubframe := true, m_SubFrameRect := frame }

/-- getScaleUnitString (extractorsolver.h lines 121-141). -/
def getScaleUnitString (s : ExtractorSolver) : String :=
  match s.scaleunit with
  | .DEG_WIDTH => "degwidth"
  | .ARCMIN_WIDTH => "arcminwidth"
  | .ARCSEC_PER_PIX => "arcsecperpix"
  | .FOCAL_MM => "focalmm"

end ExtractorSolver

/-! ### The extraction/solving pipeline

The virtual run() bodies live in internalextractorsolver.cpp and
externalextractorsolver.cpp, which are not in src/; the engine outcomes and
the pipeline below are therefore modelled from the specification. -/

/-- Modelled from the spec: the outcome the extraction and solving engines
produce for one run (internalextractorsolver.cpp / externalextractorsolver.cpp
bodies are missing from src/).  extraction yields a Background and a star
list on success; solving yields a Solution together with the catalog index
number and healpix that produced the match. -/
structure EngineOutcome where
  extractOutcome : Option (Background × List Star)
  solveOutcome : Option (Solution × Int × Int)
  deriving DecidableEq, Repr

/-- Modelled from the spec: the extraction step of the pipeline — on
success it populates the Background and the star list and marks
extraction done; on failure the state is unchanged (partial results
remain accessible). -/
def applyExtract (o : EngineOutcome) (s : ExtractorSolver) : ExtractorSolver :=
  match o.extractOutcome with
  | none => s
  | some (bg, stars) =>
      { s with m_HasExtracted := true, m_Background := bg,
               m_ExtractedStars := stars }

/-- Modelled from the spec: the solving step of the pipeline — on success
it populates the Solution and the index identifiers and marks solving
done; on failure the state is unchanged. -/
def applySolve (o : EngineOutcome) (s : ExtractorSolver) : ExtractorSolver :=
  match o.solveOutcome with
  | none => s
  | some (sol, idx, hp) =>
      { s with m_HasSolved := true, m_Solution := sol,
               solutionIndexNumber := idx, solutionHealpix := hp }

/-- Modelled from the spec: the virtual run() method executed on the worker
thread (its overriding bodies are missing from src/): dispatches on the
process type, extracting stars (if not already done) and, for SOLVE,
then attempting the solve. -/
def run (o : EngineOutcome) (s : ExtractorSolver) : ExtractorSolver :=
  match s.m_ProcessType with
  | .EXTRACT => applyExtract o s
  | .EXTRACT_WITH_HFR => applyExtract o s
  | .SOLVE =>
      let s1 := if s.m_HasExtracted then s else applyExtract o s
      applySolve o s1

/-- ExtractorSolver::execute (extractorsolver.cpp lines 47-50): performs
the run() pipeline in the calling thread — its body is exactly
`run();`. -/
def execute (o : EngineOutcome) (s : ExtractorSolver) : ExtractorSolver :=
  run o s

/-! ### ExternalExtractorSolver state (externalextractorsolver.h)

Only the header of ExternalExtractorSolver is in src/ (its .cpp and the
intermediate InternalExtractorSolver class are missing), so the structure
below carries the header's data members over the base-class members, and
the method bodies used by the claims are modelled from the spec. -/

/-- Modelled from the spec: the opaque WCS transform handle (struct wcsprm,
loaded by loadWCS in the missing externalextractorsolver.cpp).  The spec
describes it as the loaded projection together with its inverse transform,
so the model carries the two projection maps. -/
structure WCSTransform where
  projPixelToSky : QPointF → WcsPoint
  projSkyToPixel : WcsPoint → QPointF

/-- Modelled from the spec: a successfully parsed coordinate-system
artifact (spec §4.4): the opaque handle carries the loaded projection
together with its inverse transform — on every pixel point inside the
image bounds, the sky-to-pixel map undoes the pixel-to-sky map (the
spec §8 round-trip contract of a loaded handle; the double tolerance of
the spec renders as exact Rat equality in this embedding). -/
structure ParsedWCS (width height : Nat) where
  toWCSTransform : WCSTransform
  inverse_on_bounds : ∀ p : QPointF, 0 ≤ p.px → p.px ≤ (width : Rat) →
    0 ≤ p.py → p.py ≤ (height : Rat) →
    toWCSTransform.projSkyToPixel (toWCSTransform.projPixelToSky p) = p

/-- The data members of class ExternalExtractorSolver
(externalextractorsolver.h lines 29-55) over the inherited
ExtractorSolver members, with the header's default initializers.
m_wcs is the WCS handle pointer: none models nullptr. -/
structure ExternalExtractorSolver extends ExtractorSolver where
  fileToProcess : String := ""
  fileToProcessIsTempFile : Bool := false
  solutionFile : String := ""
  starXYLSFilePath : String := ""
  starXYLSFilePathIsTempFile : Bool := false
  cleanupTemporaryFiles : Bool := true
  autoGenerateAstroConfig : Bool := true
  onlySendFITSFiles : Bool := true
  m_wcs : Option WCSTransform := none
  m_nwcs : Int := 0

namespace ExternalExtractorSolver

/-- Modelled from the spec: ExternalExtractorSolver::pixelToWCS (body
missing from src/) — fails (returns none) when no WCS handle is loaded,
otherwise applies the loaded projection to the pixel point. -/
def pixelToWCS (s : ExternalExtractorSolver) (pixelPoint : QPointF) :
    Option WcsPoint :=
  match s.m_wcs with
  | none => none
  | some w => some (w.projPixelToSky pixelPoint)

/-- Modelled from the spec: ExternalExtractorSolver::wcsToPixel (body
missing from src/) — the inverse transform, with the same failure
contract. -/
def wcsToPixel (s : ExternalExtractorSolver) (skyPoint : WcsPoint) :
    Option QPointF :=
  match s.m_wcs with
  | none => none
  | some w => some (w.projSkyToPixel skyPoint)

/-- Modelled from the spec: ExternalExtractorSolver::loadWCS (body
missing from src/; spec §4.4) — valid only after Solved.  Given the
parse result of the solution's coordinate-system artifact (none models
a malformed or missing artifact), it installs the transform handle,
sets m_HasWCS and m_nwcs and returns 0; on a missing/malformed artifact
or an unsolved instance it returns a nonzero failure code and changes
nothing. -/
def loadWCS (s : ExternalExtractorSolver)
    (artifact : Option (ParsedWCS s.m_Statistics.width
      s.m_Statistics.height)) : Int × ExternalExtractorSolver :=
  if s.m_HasSolved = true then
    match artifact with
    | none => (1, s)
    | some w => (0, { s with m_HasWCS := true,
                             m_wcs := some w.toWCSTransform, m_nwcs := 1 })
  else (1, s)

/-- Modelled from the spec: ExternalExtractorSolver::spawnChildSolver
(body missing from src/) — returns the parent unchanged together with a
new child instance bound to the same image buffer and statistics,
inheriting the parent's configuration (options, paths, scale, position,
subframe) with a temp-file suffix derived from the spawn index, but with
independent (fresh) result and progress state. -/
def spawnChildSolver (s : ExternalExtractorSolver) (n : Int) :
    ExternalExtractorSolver × ExternalExtractorSolver :=
  let child : ExternalExtractorSolver :=
    { m_ProcessType := s.m_ProcessType
      m_ExtractorType := s.m_ExtractorType
      m_SolverType := s.m_SolverType
      m_LogToFile := s.m_LogToFile
      m_LogFileName := s.m_LogFileName
      m_AstrometryLogLevel := s.m_AstrometryLogLevel
      m_SSLogLevel := s.m_SSLogLevel
      m_BaseName := s.m_BaseName ++ toString n
      m_BasePath := s.m_BasePath
      indexFolderPaths := s.indexFolderPaths
      indexFiles := s.indexFiles
      convFilter := s.convFilter
      m_UseScale := s.m_UseScale
      scalelo := s.scalelo
      scalehi := s.scalehi
      scaleunit := s.scaleunit
      m_UsePosition := s.m_UsePosition
      search_ra := s.search_ra
      search_dec := s.search_dec
      m_UseSubframe := s.m_UseSubframe
      m_SubFrameRect := s.m_SubFrameRect
      m_Statistics := s.m_Statistics
      m_ImageBuffer := s.m_ImageBuffer
      isChildSolver := true
      fileToProcess := s.fileToProcess
      cleanupTemporaryFiles := s.cleanupTemporaryFiles
      autoGenerateAstroConfig := s.autoGenerateAstroConfig
      onlySendFITSFiles := s.onlySendFITSFiles }
  (s, child)

end ExternalExtractorSolver

/-! ### Depth-parallel scheduler (class StellarSolver, not in src/) -/

/-- Modelled from the spec: the depth-parallel scheduler's partitioning of
the total depth range [lo, hi) into N contiguous sub-ranges (the
scheduler class StellarSolver is not in src/).  Each sub-range has width
(hi - lo) / N; the remainder is assigned to the last partition, whose
upper bound is hi itself. -/
def partitionDepths (N : Nat) (lo hi : Int) : List (Int × Int) :=
  let inc : Int := (hi - lo) / (N : Int)
  (List.range N).map fun i =>
    if i = N - 1 then (lo + (i : Int) * inc, hi)
    else (lo + (i : Int) * inc, lo + ((i : Int) + 1) * inc)

/-- Modelled from the spec: the scheduler spawns one child per sub-range
via spawnChildSolver and binds the child's depthlo/depthhi fields to the
sub-range bounds. -/
def spawnChildrenForDepths (s : ExternalExtractorSolver) (N : Nat)
    (lo hi : Int) : List ExternalExtractorSolver :=
  (partitionDepths N lo hi).enum.map fun ir =>
    let c := (ExternalExtractorSolver.spawnChildSolver s (Int.ofNat ir.1)).2
    { c with depthlo := ir.2.1, depthhi := ir.2.2 }

/-! ### The instance state machine and abort (spec §4.1/§4.2; the abort()
bodies live in the missing .cpp files) -/

/-- Modelled from the spec: the per-instance lifecycle states
Idle → Extracting → Extracted → Solving → Solved | Failed | Aborted. -/
inductive Phase
  | Idle
  | Extracting
  | Extracted
  | Solving
  | Solved
  | Failed
  | Aborted
  deriving DecidableEq, Repr

/-- Solved, Failed and Aborted are the terminal states. -/
def Phase.isTerminal : Phase → Bool
  | .Solved => true
  | .Failed => true
  | .Aborted => true
  | _ => false

/-- Modelled from the spec: the observable instance state that abort()
affects — the lifecycle phase, the m_WasAborted flag
(extractorsolver.h line 281), and the resources abort must deal with:
the running external process, the cancel file it creates, and the held
WCS handle. -/
structure RunningInstance where
  phase : Phase
  m_WasAborted : Bool
  processRunning : Bool
  cancelFileCreated : Bool
  wcsHandleHeld : Bool
  deriving DecidableEq, Repr

/-- Modelled from the spec: abort() (bodies in the missing
internalextractorsolver.cpp / externalextractorsolver.cpp) — from a
non-terminal state it creates the cancel file, terminates the external
process, releases the held resources, sets m_WasAborted and forces the
Aborted terminal state; a terminal state is never revisited, so on an
instance already in a terminal state it changes nothing. -/
def abort (s : RunningInstance) : RunningInstance :=
  if s.phase.isTerminal then s
  else { phase := .Aborted, m_WasAborted := true, processRunning := false,
         cancelFileCreated := true, wcsHandleHeld := false }

/-! ### Operations and reachability of an ExternalExtractorSolver
instance.  The setter steps are the src methods; the extraction, solving,
WCS-loading and abort-signal steps are modelled from the spec (their
bodies are in the missing .cpp files); loadWCS is valid only after
Solved. -/

/-- Modelled from the spec: one observable operation on a solver
instance.  Extraction and solving mark success and populate their
results; loadWCS requires m_HasSolved and installs the WCS handle;
abort raises m_WasAborted; the setters are those of
extractorsolver.cpp / extractorsolver.h. -/
inductive Step : ExternalExtractorSolver → ExternalExtractorSolver → Prop
  | extractOk (s : ExternalExtractorSolver) (bg : Background)
      (stars : List Star) :
      Step s { s with m_HasExtracted := true, m_Background := bg,
                      m_ExtractedStars := stars }
  | extractFail (s : ExternalExtractorSolver) : Step s s
  | solveOk (s : ExternalExtractorSolver) (sol : Solution) (idx hp : Int) :
      Step s { s with m_HasSolved := true, m_Solution := sol,
                      solutionIndexNumber := idx, solutionHealpix := hp }
  | solveFail (s : ExternalExtractorSolver) : Step s s
  | loadWCSOk (s : ExternalExtractorSolver) (w : WCSTransform)
      (h : s.m_HasSolved = true) :
      Step s { s with m_HasWCS := true, m_wcs := some w, m_nwcs := 1 }
  | abortSignal (s : ExternalExtractorSolver) :
      Step s { s with m_WasAborted := true }
  | setScale (s : ExternalExtractorSolver) (l h : Rat) (u : ScaleUnits) :
      Step s { s with toExtractorSolver :=
                        s.toExtractorSolver.setSearchScale l h u }
  | setPosition (s : ExternalExtractorSolver) (ra dec : Rat) :
      Step s { s with toExtractorSolver :=
                        s.toExtractorSolver.setSearchPositionInDegrees ra dec }
  | setSubframe (s : ExternalExtractorSolver) (frame : Rect) :
      Step s { s with toExtractorSolver :=
                        s.toExtractorSolver.setUseSubframe frame }

/-- Modelled from the spec: an instance state is reachable when it is
freshly constructed, obtained from a reachable state by one operation,
or spawned as a child of a reachable instance. -/
inductive Reachable : ExternalExtractorSolver → Prop
  | constructed (pT : ProcessType) (eT : ExtractorType) (sT : SolverType)
      (stats : Statistic) (buf : Nat) :
      Reachable { toExtractorSolver :=
                    ExtractorSolver.construct pT eT sT stats buf }
  | step (s t : ExternalExtractorSolver) :
      Reachable s → Step s t → Reachable t
  | spawned (s : ExternalExtractorSolver) (n : Int) : Reachable s →
      Reachable (ExternalExtractorSolver.spawnChildSolver s n).2

/-! ### Engine output formats lacking the index fields (spec §4.2) -/

/-- Modelled from the spec: getASTAPSolutionInformation and
getWatneySolutionInformation (externalextractorsolver.cpp, missing from
src/) parse the key/value solution file of an engine whose output format
lacks the catalog index number and healpix fields; they populate the
Solution and mark solving done, leaving solutionIndexNumber and
solutionHealpix untouched (so both stay at the documented sentinel -1
when nothing ever populated them). -/
def applySolutionLackingIndexFields (s : ExtractorSolver) (sol : Solution) :
    ExtractorSolver :=
  { s with m_HasSolved := true, m_Solution := sol }

/-! ### Concrete fixtures used by the witness theorems -/

/-- A concrete image statistic. -/
def stat0 : Statistic := ⟨100, 100, 1, 2⟩

/-- A concrete freshly constructed base solver. -/
def solver0 : ExtractorSolver :=
  ExtractorSolver.construct .SOLVE .EXTRACTOR_EXTERNAL
    .SOLVER_LOCALASTROMETRY stat0 42

/-- A concrete freshly constructed external solver. -/
def extSolver0 : ExternalExtractorSolver := { toExtractorSolver := solver0 }

/-- A concrete WCS transform handle (the identity projection). -/
def idTransform : WCSTransform :=
  ⟨fun p => ⟨p.px, p.py⟩, fun q => ⟨q.wra, q.wdec⟩⟩

/-- A concrete solution. -/
def sol0 : Solution := ⟨10, 10, 180, 45, 0, 1, .POSITIVE, 0, 0⟩

/-- A concrete background. -/
def bg0 : Background := ⟨1, 1, 5, 2, 3⟩

/-- extSolver0 after a successful extraction step. -/
def extExtracted : ExternalExtractorSolver :=
  { extSolver0 with m_HasExtracted := true, m_Background := bg0,
                    m_ExtractedStars := [] }

/-- extExtracted after a successful solve step. -/
def extSolved : ExternalExtractorSolver :=
  { extExtracted with m_HasSolved := true, m_Solution := sol0,
                      solutionIndexNumber := 4, solutionHealpix := 2 }

/-- extSolved after loading the WCS handle. -/
def extWithWCS : ExternalExtractorSolver :=
  { extSolved with m_HasWCS := true, m_wcs := some idTransform, m_nwcs := 1 }

/-- A concrete mid-solve instance with a running external process. -/
def runningInst0 : RunningInstance := ⟨.Solving, false, true, false, false⟩

/-- A concrete pixel point. -/
def pix0 : QPointF := ⟨3, 4⟩

/-- A concrete sky point. -/
def sky0 : WcsPoint := ⟨180, 45⟩

/-- A concrete successfully parsed WCS artifact over the 100x100 image
(the identity projection, which is its own inverse). -/
def parsed0 : ParsedWCS 100 100 :=
  ⟨idTransform, fun _ _ _ _ _ => rfl⟩

/-! ## Theorems -/

/-- Helper: the partition list has exactly N entries. -/
theorem partitionDepths_length (N : Nat) (lo hi : Int) :
    (partitionDepths N lo hi).length = N := by
  simp [partitionDepths]

/-- Helper: closed form of the i-th partition entry. -/
theorem partitionDepths_getD (N : Nat) (lo hi : Int) (i : Nat) (h : i < N) :
    (partitionDepths N lo hi).getD i (0, 0) =
      (lo + (i : Int) * ((hi - lo) / (N : Int)),
       if i = N - 1 then hi
       else lo + ((i : Int) + 1) * ((hi - lo) / (N : Int))) := by
  have hlen : i < (partitionDepths N lo hi).length := by
    simpa [partitionDepths_length] using h
  rw [List.getD_eq_getElem _ _ hlen]
  simp only [partitionDepths, List.getElem_map, List.getElem_range]
  split <;> rfl

/-- Helper: the partition is exactly N contiguous, non-overlapping
sub-ranges with union [lo, hi), the remainder going to the last one. -/
theorem partitionDepths_correct (N : Nat) (lo hi : Int)
    (hN : 1 ≤ N) (hlh : lo ≤ hi) :
    (partitionDepths N lo hi).length = N ∧
    ((partitionDepths N lo hi).getD 0 (0, 0)).1 = lo ∧
    ((partitionDepths N lo hi).getD (N - 1) (0, 0)).2 = hi ∧
    (∀ i : Nat, i + 1 < N →
       ((partitionDepths N lo hi).getD i (0, 0)).2 =
         ((partitionDepths N lo hi).getD (i + 1) (0, 0)).1) ∧
    (∀ i j : Nat, i < j → j < N →
       ((partitionDepths N lo hi).getD i (0, 0)).2 ≤
         ((partitionDepths N lo hi).getD j (0, 0)).1) ∧
    (∀ d : Int, (lo ≤ d ∧ d < hi) ↔
       ∃ i : Nat, i < N ∧ ((partitionDepths N lo hi).getD i (0, 0)).1 ≤ d ∧
         d < ((partitionDepths N lo hi).getD i (0, 0)).2) := by
  have hNz : ((N : Int)) ≠ 0 := by
    have : (0 : Int) < (N : Int) := by exact_mod_cast hN
    omega
  have hNpos : (0 : Int) < (N : Int) := by exact_mod_cast hN
  have hinc0 : 0 ≤ (hi - lo) / (N : Int) :=
    Int.ediv_nonneg (by omega) (le_of_lt hNpos)
  have hNmul : (N : Int) * ((hi - lo) / (N : Int)) ≤ hi - lo := by
    have h1 := Int.ediv_add_emod (hi - lo) (N : Int)
    have h2 := Int.emod_nonneg (hi - lo) hNz
    omega
  refine ⟨partitionDepths_length N lo hi, ?_, ?_, ?_, ?_, ?_⟩
  · rw [partitionDepths_getD N lo hi 0 (by omega)]
    simp
  · rw [partitionDepths_getD N lo hi (N - 1) (by omega)]
    simp
  · intro i hi1
    rw [partitionDepths_getD N lo hi i (by omega),
        partitionDepths_getD N lo hi (i + 1) (by omega)]
    have hne : ¬(i = N - 1) := by omega
    simp only [hne, if_false]
    push_cast
    ring
  · intro i j hij hjN
    rw [partitionDepths_getD N lo hi i (by omega),
        partitionDepths_getD N lo hi j (by omega)]
    have hne : ¬(i = N - 1) := by omega
    simp only [hne, if_false]
    have hle : ((i : Int) + 1) ≤ (j : Int) := by exact_mod_cast hij
    have := mul_le_mul_of_nonneg_right hle hinc0
    omega
  · intro d
    constructor
    · rintro ⟨hd1, hd2⟩
      by_cases hcase : d < lo + ((N : Int) - 1) * ((hi - lo) / (N : Int))
      · have hpos : 0 < (hi - lo) / (N : Int) := by
          rcases lt_or_eq_of_le hinc0 with hp | hp
          · exact hp
          · exfalso
            rw [← hp] at hcase
            simp at hcase
            omega
        have hk0 : 0 ≤ (d - lo) / ((hi - lo) / (N : Int)) :=
          Int.ediv_nonneg (by omega) (le_of_lt hpos)
        refine ⟨((d - lo) / ((hi - lo) / (N : Int))).toNat, ?_, ?_, ?_⟩
        all_goals {
          have hkInt : (((d - lo) / ((hi - lo) / (N : Int))).toNat : Int) =
              (d - lo) / ((hi - lo) / (N : Int)) := Int.toNat_of_nonneg hk0
          have e1 := Int.ediv_add_emod (d - lo) ((hi - lo) / (N : Int))
          have e2 := Int.emod_nonneg (d - lo) (by omega :
            ((hi - lo) / (N : Int)) ≠ 0)
          have e3 := Int.emod_lt_of_pos (d - lo) hpos
          have hklt : (d - lo) / ((hi - lo) / (N : Int)) < (N : Int) - 1 := by
            by_contra hge
            push_neg at hge
            have := mul_le_mul_of_nonneg_right hge (le_of_lt hpos)
            nlinarith
          have hkN : ((d - lo) / ((hi - lo) / (N : Int))).toNat < N - 1 := by
            omega
          first
          | omega
          | (rw [partitionDepths_getD N lo hi _ (by omega)]
             have hne :
                 ¬(((d - lo) / ((hi - lo) / (N : Int))).toNat = N - 1) := by
               omega
             simp only [hne, if_false]
             rw [hkInt]
             nlinarith)
        }
      · push_neg at hcase
        refine ⟨N - 1, by omega, ?_, ?_⟩
        · rw [partitionDepths_getD N lo hi (N - 1) (by omega)]
          have hcast : (((N - 1 : Nat)) : Int) = (N : Int) - 1 := by omega
          simp only [hcast]
          omega
        · rw [partitionDepths_getD N lo hi (N - 1) (by omega)]
          simp
          omega
    · rintro ⟨i, hiN, hstart, hend⟩
      rw [partitionDepths_getD N lo hi i (by omega)] at hstart hend
      have hi0 : (0 : Int) ≤ (i : Int) * ((hi - lo) / (N : Int)) :=
        mul_nonneg (by positivity) hinc0
      constructor
      · omega
      · by_cases hne : i = N - 1
        · simp only [hne, if_true] at hend
          simpa using hend
        · simp only [hne, if_false] at hend
          have hle : ((i : Int) + 1) ≤ (N : Int) := by
            have : i + 1 ≤ N := by omega
            exact_mod_cast this
          have := mul_le_mul_of_nonneg_right hle hinc0
          omega

/-- C1: for every parallelism N >= 1 over a depth range [lo, hi), the
scheduler partitioning produces exactly N contiguous, non-overlapping
sub-ranges starting at lo, ending at hi (remainder assigned to the last
partition), whose union is [lo, hi); and each spawned child solver has
its depthlo/depthhi fields bound to exactly its sub-range bounds. -/
theorem scheduler_partition_spec (N : Nat) (lo hi : Int)
    (hN : 1 <= N) (hlh : lo <= hi) (s : ExternalExtractorSolver) :
    (partitionDepths N lo hi).length = N ∧
    ((partitionDepths N lo hi).getD 0 (0, 0)).1 = lo ∧
    ((partitionDepths N lo hi).getD (N - 1) (0, 0)).2 = hi ∧
    (∀ i : Nat, i + 1 < N →
       ((partitionDepths N lo hi).getD i (0, 0)).2 =
         ((partitionDepths N lo hi).getD (i + 1) (0, 0)).1) ∧
    (∀ i j : Nat, i < j → j < N →
       ((partitionDepths N lo hi).getD i (0, 0)).2 ≤
         ((partitionDepths N lo hi).getD j (0, 0)).1) ∧
    (∀ d : Int, (lo ≤ d ∧ d < hi) ↔
       ∃ i : Nat, i < N ∧ ((partitionDepths N lo hi).getD i (0, 0)).1 ≤ d ∧
         d < ((partitionDepths N lo hi).getD i (0, 0)).2) ∧
    ((spawnChildrenForDepths s N lo hi).map
       (fun c => (c.depthlo, c.depthhi)) = partitionDepths N lo hi) := by
  obtain ⟨h1, h2, h3, h4, h5, h6⟩ := partitionDepths_correct N lo hi hN hlh
  refine ⟨h1, h2, h3, h4, h5, h6, ?_⟩
  unfold spawnChildrenForDepths
  rw [List.map_map]
  have h : ((fun c : ExternalExtractorSolver => (c.depthlo, c.depthhi)) ∘
      (fun ir : Nat × (Int × Int) =>
        let c := (ExternalExtractorSolver.spawnChildSolver s
          (Int.ofNat ir.1)).2
        { c with depthlo := ir.2.1, depthhi := ir.2.2 })) =
      fun ir : Nat × (Int × Int) => ir.2 := by
    funext ir
    rfl
  rw [h]
  exact List.enum_map_snd _

/-- Witness for C1 at the spec scenario: parallelism 4 over [0, 4000)
yields [0,1000), [1000,2000), [2000,3000), [3000,4000). -/
theorem scheduler_partition_spec_witness :
    1 ≤ 4 ∧ (0 : Int) ≤ 4000 ∧
    partitionDepths 4 0 4000 =
      [(0, 1000), (1000, 2000), (2000, 3000), (3000, 4000)] ∧
    (partitionDepths 4 0 4000).length = 4 ∧
    ((spawnChildrenForDepths extSolver0 4 0 4000).map
       (fun c => (c.depthlo, c.depthhi)) = partitionDepths 4 0 4000) :=
  ⟨by decide, by decide, by decide,
   (scheduler_partition_spec 4 0 4000 (by decide) (by decide) extSolver0).1,
   (scheduler_partition_spec 4 0 4000 (by decide) (by decide)
      extSolver0).2.2.2.2.2.2⟩



/-- C9: in every state of a solver instance, getNumStarsFound equals the
number of elements of the list returned by getStarList; both accessors
read the same m_ExtractedStars member, so they can never disagree. -/
theorem getNumStarsFound_eq_getStarList_length (s : ExtractorSolver) :
    s.getNumStarsFound = s.getStarList.length ∧
    s.getStarList = s.m_ExtractedStars ∧
    s.getNumStarsFound = s.m_ExtractedStars.length :=
  ⟨rfl, rfl, rfl⟩

/-- C10: setSearchScale sets m_UseScale to true (regardless of its prior
value, so it can never be reset to false by this method) and stores
exactly fov_low, fov_high, units into scalelo, scalehi, scaleunit,
changing no other member; setSearchPositionInDegrees sets m_UsePosition
to true (likewise never back to false) and stores exactly ra, dec into
search_ra, search_dec, changing no other member. -/
theorem setSearch_methods_frame (s : ExtractorSolver) (l h : Rat)
    (u : ScaleUnits) (ra dec : Rat) :
    ((s.setSearchScale l h u).m_UseScale = true ∧
     (s.setSearchScale l h u).scalelo = l ∧
     (s.setSearchScale l h u).scalehi = h ∧
     (s.setSearchScale l h u).scaleunit = u ∧
     (s.setSearchScale l h u).m_ProcessType = s.m_ProcessType ∧
     (s.setSearchScale l h u).m_ExtractorType = s.m_ExtractorType ∧
     (s.setSearchScale l h u).m_SolverType = s.m_SolverType ∧
     (s.setSearchScale l h u).m_LogToFile = s.m_LogToFile ∧
     (s.setSearchScale l h u).m_LogFileName = s.m_LogFileName ∧
     (s.setSearchScale l h u).m_AstrometryLogLevel = s.m_AstrometryLogLevel ∧
     (s.setSearchScale l h u).m_SSLogLevel = s.m_SSLogLevel ∧
     (s.setSearchScale l h u).m_BaseName = s.m_BaseName ∧
     (s.setSearchScale l h u).m_BasePath = s.m_BasePath ∧
     (s.setSearchScale l h u).indexFolderPaths = s.indexFolderPaths ∧
     (s.setSearchScale l h u).indexFiles = s.indexFiles ∧
     (s.setSearchScale l h u).convFilter = s.convFilter ∧
     (s.setSearchScale l h u).depthlo = s.depthlo ∧
     (s.setSearchScale l h u).depthhi = s.depthhi ∧
     (s.setSearchScale l h u).m_UsePosition = s.m_UsePosition ∧
     (s.setSearchScale l h u).search_ra = s.search_ra ∧
     (s.setSearchScale l h u).search_dec = s.search_dec ∧
     (s.setSearchScale l h u).m_HasExtracted = s.m_HasExtracted ∧
     (s.setSearchScale l h u).m_HasSolved = s.m_HasSolved ∧
     (s.setSearchScale l h u).m_HasWCS = s.m_HasWCS ∧
     (s.setSearchScale l h u).m_WasAborted = s.m_WasAborted ∧
     (s.setSearchScale l h u).m_UseSubframe = s.m_UseSubframe ∧
     (s.setSearchScale l h u).m_SubFrameRect = s.m_SubFrameRect ∧
     (s.setSearchScale l h u).m_Statistics = s.m_Statistics ∧
     (s.setSearchScale l h u).m_ImageBuffer = s.m_ImageBuffer ∧
     (s.setSearchScale l h u).usingDownsampledImage = s.usingDownsampledImage ∧
     (s.setSearchScale l h u).m_Background = s.m_Background ∧
     (s.setSearchScale l h u).m_ExtractedStars = s.m_ExtractedStars ∧
     (s.setSearchScale l h u).m_Solution = s.m_Solution ∧
     (s.setSearchScale l h u).solutionIndexNumber = s.solutionIndexNumber ∧
     (s.setSearchScale l h u).solutionHealpix = s.solutionHealpix ∧
     (s.setSearchScale l h u).cancelfn = s.cancelfn ∧
     (s.setSearchScale l h u).solvedfn = s.solvedfn ∧
     (s.setSearchScale l h u).isChildSolver = s.isChildSolver) ∧
    ((s.setSearchPositionInDegrees ra dec).m_UsePosition = true ∧
     (s.setSearchPositionInDegrees ra dec).search_ra = ra ∧
     (s.setSearchPositionInDegrees ra dec).search_dec = dec ∧
     (s.setSearchPositionInDegrees ra dec).m_ProcessType = s.m_ProcessType ∧
     (s.setSearchPositionInDegrees ra dec).m_ExtractorType = s.m_ExtractorType ∧
     (s.setSearchPositionInDegrees ra dec).m_SolverType = s.m_SolverType ∧
     (s.setSearchPositionInDegrees ra dec).m_LogToFile = s.m_LogToFile ∧
     (s.setSearchPositionInDegrees ra dec).m_LogFileName = s.m_LogFileName ∧
     (s.setSearchPositionInDegrees ra dec).m_AstrometryLogLevel =
       s.m_AstrometryLogLevel ∧
     (s.setSearchPositionInDegrees ra dec).m_SSLogLevel = s.m_SSLogLevel ∧
     (s.setSearchPositionInDegrees ra dec).m_BaseName = s.m_BaseName ∧
     (s.setSearchPositionInDegrees ra dec).m_BasePath = s.m_BasePath ∧
     (s.setSearchPositionInDegrees ra dec).indexFolderPaths =
       s.indexFolderPaths ∧
     (s.setSearchPositionInDegrees ra dec).indexFiles = s.indexFiles ∧
     (s.setSearchPositionInDegrees ra dec).convFilter = s.convFilter ∧
     (s.setSearchPositionInDegrees ra dec).m_UseScale = s.m_UseScale ∧
     (s.setSearchPositionInDegrees ra dec).scalelo = s.scalelo ∧
     (s.setSearchPositionInDegrees ra dec).scalehi = s.scalehi ∧
     (s.setSearchPositionInDegrees ra dec).scaleunit = s.scaleunit ∧
     (s.setSearchPositionInDegrees ra dec).depthlo = s.depthlo ∧
     (s.setSearchPositionInDegrees ra dec).depthhi = s.depthhi ∧
     (s.setSearchPositionInDegrees ra dec).m_HasExtracted = s.m_HasExtracted ∧
     (s.setSearchPositionInDegrees ra dec).m_HasSolved = s.m_HasSolved ∧
     (s.setSearchPositionInDegrees ra dec).m_HasWCS = s.m_HasWCS ∧
     (s.setSearchPositionInDegrees ra dec).m_WasAborted = s.m_WasAborted ∧
     (s.setSearchPositionInDegrees ra dec).m_UseSubframe = s.m_UseSubframe ∧
     (s.setSearchPositionInDegrees ra dec).m_SubFrameRect = s.m_SubFrameRect ∧
     (s.setSearchPositionInDegrees ra dec).m_Statistics = s.m_Statistics ∧
     (s.setSearchPositionInDegrees ra dec).m_ImageBuffer = s.m_ImageBuffer ∧
     (s.setSearchPositionInDegrees ra dec).usingDownsampledImage =
       s.usingDownsampledImage ∧
     (s.setSearchPositionInDegrees ra dec).m_Background = s.m_Background ∧
     (s.setSearchPositionInDegrees ra dec).m_ExtractedStars =
       s.m_ExtractedStars ∧
     (s.setSearchPositionInDegrees ra dec).m_Solution = s.m_Solution ∧
     (s.setSearchPositionInDegrees ra dec).solutionIndexNumber =
       s.solutionIndexNumber ∧
     (s.setSearchPositionInDegrees ra dec).solutionHealpix =
       s.solutionHealpix ∧
     (s.setSearchPositionInDegrees ra dec).cancelfn = s.cancelfn ∧
     (s.setSearchPositionInDegrees ra dec).solvedfn = s.solvedfn ∧
     (s.setSearchPositionInDegrees ra dec).isChildSolver = s.isChildSolver) := by
  simp [ExtractorSolver.setSearchScale,
        ExtractorSolver.setSearchPositionInDegrees]

/-- C7: execute performs exactly the run() pipeline, synchronously in the
caller's thread: for every engine outcome and every input state, the
state after execute equals the terminal state run reaches
(extractorsolver.cpp lines 47-50: the body of execute is `run();`). -/
theorem execute_eq_run (o : EngineOutcome) (s : ExtractorSolver) :
    execute o s = run o s :=
  rfl

/-- C8: on a freshly constructed instance the catalog index number and
healpix are at the sentinel -1, so getSolutionIndexNumber and
getSolutionHealpix return -1; and a solve whose engine output format
lacks these fields leaves both accessors unchanged, so they still return
-1 whenever nothing ever populated the fields. -/
theorem solutionIndex_healpix_sentinel (pT : ProcessType) (eT : ExtractorType)
    (sT : SolverType) (stats : Statistic) (buf : Nat) (s : ExtractorSolver)
    (sol : Solution) :
    (ExtractorSolver.construct pT eT sT stats buf).getSolutionIndexNumber
       = -1 ∧
    (ExtractorSolver.construct pT eT sT stats buf).getSolutionHealpix = -1 ∧
    (applySolutionLackingIndexFields s sol).getSolutionIndexNumber =
      s.getSolutionIndexNumber ∧
    (applySolutionLackingIndexFields s sol).getSolutionHealpix =
      s.getSolutionHealpix :=
  ⟨rfl, rfl, rfl, rfl⟩

/-- C5: with no WCS handle loaded (m_wcs is null), pixelToWCS fails on
every pixel point and wcsToPixel fails on every sky point; and on any
instance both transforms are deterministic — equal inputs on the same
instance give equal outputs. -/
theorem pixelToWCS_wcsToPixel_contract (s : ExternalExtractorSolver)
    (hnull : s.m_wcs = none) (p : QPointF) (q : WcsPoint) :
    s.pixelToWCS p = none ∧ s.wcsToPixel q = none ∧
    (∀ t : ExternalExtractorSolver, ∀ p1 p2 : QPointF, p1 = p2 →
       t.pixelToWCS p1 = t.pixelToWCS p2) ∧
    (∀ t : ExternalExtractorSolver, ∀ q1 q2 : WcsPoint, q1 = q2 →
       t.wcsToPixel q1 = t.wcsToPixel q2) := by
  refine ⟨?_, ?_, ?_, ?_⟩
  · simp [ExternalExtractorSolver.pixelToWCS, hnull]
  · simp [ExternalExtractorSolver.wcsToPixel, hnull]
  · intro t p1 p2 hp
    rw [hp]
  · intro t q1 q2 hq
    rw [hq]

/-- Witness for C5 at the freshly constructed external solver (whose
m_wcs is null) and concrete points. -/
theorem pixelToWCS_wcsToPixel_contract_witness :
    extSolver0.m_wcs = none ∧
    (extSolver0.pixelToWCS pix0 = none ∧ extSolver0.wcsToPixel sky0 = none ∧
     (∀ t : ExternalExtractorSolver, ∀ p1 p2 : QPointF, p1 = p2 →
        t.pixelToWCS p1 = t.pixelToWCS p2) ∧
     (∀ t : ExternalExtractorSolver, ∀ q1 q2 : WcsPoint, q1 = q2 →
        t.wcsToPixel q1 = t.wcsToPixel q2)) :=
  ⟨rfl, pixelToWCS_wcsToPixel_contract extSolver0 rfl pix0 sky0⟩

/-- C2: on every solved instance on which loadWCS then returns success,
and for every pixel point p inside the image bounds, pixelToWCS p
succeeds with a sky point that wcsToPixel maps back to exactly p (the
spec's floating-point tolerance renders as exact Rat equality in this
embedding): the composition pixelToWCS then wcsToPixel round-trips. -/
theorem loadWCS_pixelToWCS_wcsToPixel_roundtrip
    (s : ExternalExtractorSolver)
    (w : ParsedWCS s.m_Statistics.width s.m_Statistics.height)
    (hsolved : s.m_HasSolved = true) (p : QPointF)
    (hx0 : 0 ≤ p.px) (hx1 : p.px ≤ (s.m_Statistics.width : Rat))
    (hy0 : 0 ≤ p.py) (hy1 : p.py ≤ (s.m_Statistics.height : Rat)) :
    (s.loadWCS (some w)).1 = 0 ∧
    ∃ sky : WcsPoint,
      (s.loadWCS (some w)).2.pixelToWCS p = some sky ∧
      (s.loadWCS (some w)).2.wcsToPixel sky = some p := by
  have hload : s.loadWCS (some w) =
      (0, { s with m_HasWCS := true, m_wcs := some w.toWCSTransform,
                   m_nwcs := 1 }) := by
    simp [ExternalExtractorSolver.loadWCS, hsolved]
  rw [hload]
  refine ⟨rfl, w.toWCSTransform.projPixelToSky p, rfl, ?_⟩
  show some (w.toWCSTransform.projSkyToPixel
      (w.toWCSTransform.projPixelToSky p)) = some p
  rw [w.inverse_on_bounds p hx0 hx1 hy0 hy1]

/-- Witness for C2 at a concrete solved instance, a concrete parsed
handle over its 100x100 image, and a concrete in-bounds pixel point. -/
theorem loadWCS_pixelToWCS_wcsToPixel_roundtrip_witness :
    extSolved.m_HasSolved = true ∧
    (0 : Rat) ≤ pix0.px ∧ pix0.px ≤ (extSolved.m_Statistics.width : Rat) ∧
    (0 : Rat) ≤ pix0.py ∧ pix0.py ≤ (extSolved.m_Statistics.height : Rat) ∧
    ((extSolved.loadWCS (some parsed0)).1 = 0 ∧
     ∃ sky : WcsPoint,
       (extSolved.loadWCS (some parsed0)).2.pixelToWCS pix0 = some sky ∧
       (extSolved.loadWCS (some parsed0)).2.wcsToPixel sky = some pix0) :=
  ⟨rfl, by decide, by decide, by decide, by decide,
   loadWCS_pixelToWCS_wcsToPixel_roundtrip extSolved parsed0 rfl pix0
     (by decide) (by decide) (by decide) (by decide)⟩

/-- C6: spawnChildSolver returns the parent completely unchanged together
with a child that shares the parent's image buffer (the same pointer
value) and statistics, inherits the configuration (process/extractor/
solver types, logging, paths, index lists, scale, position, subframe,
external-program options), and has independent fresh progress and result
state. -/
theorem spawnChildSolver_shares_inherits_preserves
    (s : ExternalExtractorSolver) (n : Int) :
    (s.spawnChildSolver n).1 = s ∧
    (s.spawnChildSolver n).2.m_ImageBuffer = s.m_ImageBuffer ∧
    (s.spawnChildSolver n).2.m_Statistics = s.m_Statistics ∧
    (s.spawnChildSolver n).2.m_ProcessType = s.m_ProcessType ∧
    (s.spawnChildSolver n).2.m_ExtractorType = s.m_ExtractorType ∧
    (s.spawnChildSolver n).2.m_SolverType = s.m_SolverType ∧
    (s.spawnChildSolver n).2.m_LogToFile = s.m_LogToFile ∧
    (s.spawnChildSolver n).2.m_AstrometryLogLevel = s.m_AstrometryLogLevel ∧
    (s.spawnChildSolver n).2.m_SSLogLevel = s.m_SSLogLevel ∧
    (s.spawnChildSolver n).2.m_BasePath = s.m_BasePath ∧
    (s.spawnChildSolver n).2.indexFolderPaths = s.indexFolderPaths ∧
    (s.spawnChildSolver n).2.indexFiles = s.indexFiles ∧
    (s.spawnChildSolver n).2.convFilter = s.convFilter ∧
    (s.spawnChildSolver n).2.m_UseScale = s.m_UseScale ∧
    (s.spawnChildSolver n).2.scalelo = s.scalelo ∧
    (s.spawnChildSolver n).2.scalehi = s.scalehi ∧
    (s.spawnChildSolver n).2.scaleunit = s.scaleunit ∧
    (s.spawnChildSolver n).2.m_UsePosition = s.m_UsePosition ∧
    (s.spawnChildSolver n).2.search_ra = s.search_ra ∧
    (s.spawnChildSolver n).2.search_dec = s.search_dec ∧
    (s.spawnChildSolver n).2.m_UseSubframe = s.m_UseSubframe ∧
    (s.spawnChildSolver n).2.m_SubFrameRect = s.m_SubFrameRect ∧
    (s.spawnChildSolver n).2.cleanupTemporaryFiles =
      s.cleanupTemporaryFiles ∧
    (s.spawnChildSolver n).2.autoGenerateAstroConfig =
      s.autoGenerateAstroConfig ∧
    (s.spawnChildSolver n).2.onlySendFITSFiles = s.onlySendFITSFiles ∧
    (s.spawnChildSolver n).2.m_HasExtracted = false ∧
    (s.spawnChildSolver n).2.m_HasSolved = false ∧
    (s.spawnChildSolver n).2.m_HasWCS = false ∧
    (s.spawnChildSolver n).2.m_WasAborted = false ∧
    (s.spawnChildSolver n).2.m_ExtractedStars = [] ∧
    (s.spawnChildSolver n).2.m_wcs = none ∧
    (s.spawnChildSolver n).2.isChildSolver = true := by
  simp [ExternalExtractorSolver.spawnChildSolver]

/-- C3: abort on an instance in any non-terminal state forces the Aborted
terminal state, sets the m_WasAborted flag, releases its resources (the
external process is no longer running, the WCS handle is no longer held)
after creating the cancel file; and abort is idempotent — a repeated
call changes nothing further, on any instance. -/
theorem abort_forces_Aborted_and_idempotent (s : RunningInstance)
    (h : s.phase.isTerminal = false) :
    (abort s).phase = .Aborted ∧
    (abort s).m_WasAborted = true ∧
    (abort s).processRunning = false ∧
    (abort s).wcsHandleHeld = false ∧
    (abort s).cancelFileCreated = true ∧
    (∀ t : RunningInstance, abort (abort t) = abort t) := by
  have hs : abort s =
      { phase := .Aborted, m_WasAborted := true, processRunning := false,
        cancelFileCreated := true, wcsHandleHeld := false } := by
    simp [abort, h]
  refine ⟨by rw [hs], by rw [hs], by rw [hs], by rw [hs], by rw [hs], ?_⟩
  intro t
  by_cases ht : t.phase.isTerminal = true
  · simp [abort, ht]
  · simp only [Bool.not_eq_true] at ht
    have h1 : abort t =
        { phase := .Aborted, m_WasAborted := true, processRunning := false,
          cancelFileCreated := true, wcsHandleHeld := false } := by
      simp [abort, ht]
    rw [h1]
    simp [abort, Phase.isTerminal]

/-- Witness for C3 at a concrete mid-solve (non-terminal) instance. -/
theorem abort_forces_Aborted_and_idempotent_witness :
    runningInst0.phase.isTerminal = false ∧
    ((abort runningInst0).phase = .Aborted ∧
     (abort runningInst0).m_WasAborted = true ∧
     (abort runningInst0).processRunning = false ∧
     (abort runningInst0).wcsHandleHeld = false ∧
     (abort runningInst0).cancelFileCreated = true ∧
     (∀ t : RunningInstance, abort (abort t) = abort t)) :=
  ⟨by decide, abort_forces_Aborted_and_idempotent runningInst0 (by decide)⟩

end StellarSolverSpec

namespace StellarSolverSpec

theorem hasWCS_only_if_solved (s : ExternalExtractorSolver)
    (hr : Reachable s)
    (hw : s.toExtractorSolver.hasWCSData = true ∨ s.m_wcs.isSome = true) :
    s.toExtractorSolver.solvingDone = true := by
  induction hr with
  | constructed pT eT sT stats buf =>
      simp [ExtractorSolver.hasWCSData, ExtractorSolver.construct,
            ExtractorSolver.solvingDone] at hw
  | step s t hs hst ih =>
      cases hst with
      | extractOk bg stars =>
          exact ih (by simpa [ExtractorSolver.hasWCSData] using hw)
      | extractFail => exact ih hw
      | solveOk sol idx hp => rfl
      | solveFail => exact ih hw
      | loadWCSOk w h =>
          simpa [ExtractorSolver.solvingDone] using h
      | abortSignal =>
          exact ih (by simpa [ExtractorSolver.hasWCSData] using hw)
      | setScale l h u =>
          exact ih (by simpa [ExtractorSolver.hasWCSData,
            ExtractorSolver.setSearchScale] using hw)
      | setPosition ra dec =>
          exact ih (by simpa [ExtractorSolver.hasWCSData,
            ExtractorSolver.setSearchPositionInDegrees] using hw)
      | setSubframe frame =>
          exact ih (by simpa [ExtractorSolver.hasWCSData,
            ExtractorSolver.setUseSubframe] using hw)
  | spawned s n hs ih =>
      simp [ExternalExtractorSolver.spawnChildSolver,
            ExtractorSolver.hasWCSData, ExtractorSolver.construct] at hw

end StellarSolverSpec

namespace StellarSolverSpec

theorem hasWCS_only_if_solved_witness :
    Reachable extWithWCS ∧
    ExtractorSolver.hasWCSData extWithWCS.toExtractorSolver = true ∧
    ExtractorSolver.solvingDone extWithWCS.toExtractorSolver = true := by
  have hr : Reachable extWithWCS :=
    Reachable.step extSolved extWithWCS
      (Reachable.step extExtracted extSolved
        (Reachable.step extSolver0 extExtracted
          (Reachable.constructed .SOLVE .EXTRACTOR_EXTERNAL
            .SOLVER_LOCALASTROMETRY stat0 42)
          (Step.extractOk extSolver0 bg0 []))
        (Step.solveOk extExtracted sol0 4 2))
      (Step.loadWCSOk extSolved idTransform rfl)
  exact ⟨hr, rfl, hasWCS_only_if_solved extWithWCS hr (Or.inl rfl)⟩

end StellarSolverSpec
